import Mathlib

/-!
Shallow embedding of the peer-lifecycle and event-delivery core of the
`enet-rs` host (`src/src/host.rs`), together with theorems checking the
natural-language specification against it.

Modelling conventions:
* The native `ENetHost` behind `Host::inner` is flattened into the `Host`
  structure: the contiguous peer table becomes a `List` of slots, and the
  native fields read through the raw pointer (`channelLimit`,
  `incomingBandwidth`, `outgoingBandwidth`, `peerCount`, `peers`) become
  fields of the structure (`peer_count` is the table length).  The table's
  base address and the stride `size_of::<ENetPeer>()` are carried as the
  fields `peersBase` and `peerSize` so that the pointer arithmetic of
  `Host::peer_id` can be expressed over natural-number addresses.
* A Rust function that can panic is modelled as returning `Option`, with
  `none` standing for the panic.
* The transport collaborator (`enet_host_service`, `enet_host_check_events`,
  `enet_host_connect`) is external: its result code and the native event it
  fills in are explicit inputs of the corresponding Lean functions.
* Machine integers: result codes are `Int`; sizes and the millisecond
  timeout are `Nat`, with the `as u32` cast written as `% 2 ^ 32`.
-/

/-- `PeerID` is a newtype around the table index (`PeerID(size_t)`). -/
abbrev PeerID := Nat

/-- The error type of the crate: wraps the raw numeric transport code
(`Error(i32)`). -/
structure Error where
  code : Int
deriving DecidableEq, Repr

/-- Modelled from the spec: the `Address` value type of the crate
(host-or-IP plus port, §3); its module is not under `src/` and no claim
inspects its fields, so it is kept opaque-but-concrete. -/
structure Address where
  host : Nat
  port : Nat
deriving DecidableEq, Repr

/-- `std::time::Duration`: whole seconds plus a sub-second nanosecond part. -/
structure Duration where
  secs : Nat
  nanos : Nat
deriving DecidableEq, Repr

/-- `Duration::as_millis`: the whole number of milliseconds, truncated. -/
def Duration.as_millis (d : Duration) : Nat :=
  d.secs * 1000 + d.nanos / 1000000

/-- One slot of the host's peer table.  `data` is the caller-attached
payload (behind `Peer::set_data`/`Peer::data`); every other native field of
`ENetPeer` (connection state, channel count, round-trip time, address, ...)
is abstracted into `rest`, which none of the embedded operations of
`host.rs` ever modifies. -/
structure PeerSlot (T : Type) where
  data : Option T
  rest : Nat
deriving DecidableEq, Repr

/-- Modelled from the spec: `Peer::set_data` (the `Peer` module is not under
`src/`); §4.6: replaces the attached payload, `None` being the sanctioned
teardown value. -/
def PeerSlot.set_data (p : PeerSlot T) (v : Option T) : PeerSlot T :=
  { p with data := v }

/-- The event-type discriminant of the native `ENetEvent`. -/
inductive ENetEventType where
  | NONE
  | CONNECT
  | RECEIVE
  | DISCONNECT
deriving DecidableEq, Repr

/-- The native `ENetEvent` filled in by the transport poll: discriminant,
the native peer handle (an address into the peer table), the channel id,
the event data word, the packet payload, and the channel count negotiated
for the peer concerned. -/
structure ENetEvent where
  etype : ENetEventType
  peer : Nat
  channelID : Nat
  data : Nat
  packet : List Nat
  channelCount : Nat
deriving DecidableEq, Repr

/-- The public event payload: `Connect` carries the negotiated channel
count, `Receive` the channel id and packet bytes, `Disconnect` the reason
code (§3). -/
inductive EventKind where
  | Connect (channel_count : Nat)
  | Receive (channel_id : Nat) (payload : List Nat)
  | Disconnect (reason_code : Nat)
deriving DecidableEq, Repr

/-- The public `Event`: the `PeerID` it concerns plus its kind. -/
structure Event where
  peer_id : PeerID
  kind : EventKind
deriving DecidableEq, Repr

/-- `ChannelLimit`: `Maximum` or an explicit per-peer channel count. -/
inductive ChannelLimit where
  | Maximum
  | Limited (count : Nat)
deriving DecidableEq, Repr

/-- `ENET_PROTOCOL_MAXIMUM_CHANNEL_COUNT` from `enet_sys` (255). -/
def ENET_PROTOCOL_MAXIMUM_CHANNEL_COUNT : Nat := 255

/-- `ChannelLimit::to_enet_val`: the wire representation, `0` being the
sentinel for `Maximum`. -/
def ChannelLimit.to_enet_val : ChannelLimit → Nat
  | ChannelLimit.Maximum => 0
  | ChannelLimit.Limited l => l

/-- `ChannelLimit::from_enet_val`: reads the wire value back; a wire value
of `0` hits the `panic!` arm, modelled as `none`. -/
def ChannelLimit.from_enet_val (enet_val : Nat) : Option ChannelLimit :=
  if enet_val = ENET_PROTOCOL_MAXIMUM_CHANNEL_COUNT then some ChannelLimit.Maximum
  else if enet_val = 0 then none
  else some (ChannelLimit.Limited enet_val)

/-- The `Host<T>` structure, with the native `ENetHost` state flattened in:
`peers` is the contiguous peer table (`peer_count` entries), and
`disconnect_drop` is the at-most-one pending-cleanup `PeerID`. -/
structure Host (T : Type) where
  peers : List (PeerSlot T)
  disconnect_drop : Option PeerID
  channelLimit : Nat
  incomingBandwidth : Nat
  outgoingBandwidth : Nat
  peersBase : Nat
  peerSize : Nat
deriving DecidableEq, Repr

/-- `Host::peer_count`: reads the native `peerCount` field, which is the
length of the peer table. -/
def Host.peer_count (h : Host T) : Nat :=
  h.peers.length

/-- Modelled from the spec: the transport's `enet_host_channel_limit`
setter (external collaborator); §4.2: "zero in the wire representation
means maximum", so the sentinel is stored as the effective maximum channel
count. -/
def enet_host_channel_limit (h : Host T) (wire : Nat) : Host T :=
  { h with channelLimit :=
      if wire = 0 then ENET_PROTOCOL_MAXIMUM_CHANNEL_COUNT else wire }

/-- `Host::set_channel_limit`: forwards the wire representation to the
transport setter. -/
def Host.set_channel_limit (h : Host T) (max_channel_count : ChannelLimit) : Host T :=
  enet_host_channel_limit h max_channel_count.to_enet_val

/-- `Host::channel_limit`: reads the native `channelLimit` field back
through `from_enet_val`; `none` models the panic on a wire value of `0`. -/
def Host.channel_limit (h : Host T) : Option ChannelLimit :=
  ChannelLimit.from_enet_val h.channelLimit

/-- `Host::peer`: bounds-checked lookup; out of range returns `None`,
otherwise the slot at offset `idx` of the table. -/
def Host.peer (h : Host T) (idx : PeerID) : Option (PeerSlot T) :=
  if hge : h.peer_count ≤ idx then none
  else some (h.peers.get ⟨idx, Nat.lt_of_not_le hge⟩)

/-- `Host::peer_mut`: same bounds check and slot as `Host::peer` (the
mutable borrow is immaterial in the pure model). -/
def Host.peer_mut (h : Host T) (idx : PeerID) : Option (PeerSlot T) :=
  if hge : h.peer_count ≤ idx then none
  else some (h.peers.get ⟨idx, Nat.lt_of_not_le hge⟩)

/-- `Host::peer_id`: pointer arithmetic resolving a native peer handle to
its table offset: `(peer - peers) / size_of::<ENetPeer>()`. -/
def Host.peer_id (h : Host T) (peer : Nat) : PeerID :=
  (peer - h.peersBase) / h.peerSize

/-- `Index::index` for `Host`: `self.peer(idx).expect(..)`; `none` models
the "invalid peer index" panic. -/
def Host.index (h : Host T) (idx : PeerID) : Option (PeerSlot T) :=
  h.peer idx

/-- `IndexMut::index_mut` for `Host`: `self.peer_mut(idx).expect(..)`;
`none` models the "invalid peer index" panic. -/
def Host.index_mut (h : Host T) (idx : PeerID) : Option (PeerSlot T) :=
  h.peer_mut idx

/-- `Host::drop_disconnected`: takes the pending-cleanup `PeerID` out of
`disconnect_drop` (leaving `None`) and, if one was present, clears that
peer's attached payload; `none` models the `expect` panic when the pending
id is out of range. -/
def Host.drop_disconnected (h : Host T) : Option (Host T) :=
  match h.disconnect_drop with
  | none => some h
  | some idx =>
      let h1 : Host T := { h with disconnect_drop := none }
      match h1.peer_mut idx with
      | none => none
      | some slot =>
          some { h1 with peers := h1.peers.set idx (slot.set_data none) }

/-- Modelled from the spec: `Event::from_sys_event` (the `Event` module is
not under `src/`); §3 and §4.4 step 6: translates the native event to the
public representation, resolving the native peer handle to a `PeerID`
through the host's table-offset derivation (§4.3 `peer_id_of`); a native
"no event" discriminant yields no `Event`. -/
def Event.from_sys_event (sys_event : ENetEvent) (h : Host T) : Option Event :=
  match sys_event.etype with
  | ENetEventType.NONE => none
  | ENetEventType.CONNECT =>
      some ⟨h.peer_id sys_event.peer, EventKind.Connect sys_event.channelCount⟩
  | ENetEventType.RECEIVE =>
      some ⟨h.peer_id sys_event.peer,
            EventKind.Receive sys_event.channelID sys_event.packet⟩
  | ENetEventType.DISCONNECT =>
      some ⟨h.peer_id sys_event.peer, EventKind.Disconnect sys_event.data⟩

/-- `Host::process_event`: first `drop_disconnected`, then translate the
native event; if the translated event is a `Disconnect`, record its
`PeerID` in `disconnect_drop` before returning the event.  `none` models a
panic propagated from `drop_disconnected`. -/
def Host.process_event (h : Host T) (sys_event : ENetEvent) :
    Option (Host T × Option Event) :=
  match h.drop_disconnected with
  | none => none
  | some h1 =>
      let event := Event.from_sys_event sys_event h1
      match event with
      | some ev =>
          match ev.kind with
          | EventKind.Disconnect _ =>
              some ({ h1 with disconnect_drop := some ev.peer_id }, event)
          | _ => some (h1, event)
      | none => some (h1, event)

/-- The shared `match` on the transport result code at the end of
`Host::service` and `Host::check_events`: positive means an event to
process, zero means "no event", negative is surfaced as `Error(r)`, and
the final arm is the `panic!("unreachable")`, modelled as `none`. -/
def Host.poll_dispatch (h : Host T) (res : Int) (sys_event : ENetEvent) :
    Option (Host T × Except Error (Option Event)) :=
  if 0 < res then
    (h.process_event sys_event).map (fun pr => (pr.1, Except.ok pr.2))
  else if res = 0 then
    some (h, Except.ok none)
  else if res < 0 then
    some (h, Except.error ⟨res⟩)
  else
    none

/-- `Host::service(timeout)`: passes `timeout.as_millis() as u32` to
`enet_host_service` and dispatches on the transport's result code.  The
transport call itself is external, so its result code `res` and the native
event it fills in are inputs; the first component records the millisecond
argument actually passed to the transport. -/
def Host.service (h : Host T) (timeout : Duration) (res : Int)
    (sys_event : ENetEvent) :
    Nat × Option (Host T × Except Error (Option Event)) :=
  (timeout.as_millis % 2 ^ 32, h.poll_dispatch res sys_event)

/-- `Host::check_events`: non-blocking poll; dispatches on the transport's
result code exactly as `service` does. -/
def Host.check_events (h : Host T) (res : Int) (sys_event : ENetEvent) :
    Option (Host T × Except Error (Option Event)) :=
  h.poll_dispatch res sys_event

/-- `Host::connect`: the transport either returns a null handle (`none`),
surfaced as `Err(Error(0))`, or a native peer handle, in which case the
slot behind the handle is returned together with the `PeerID` derived by
`Host::peer_id`.  The returned handle stands for the `&mut Peer<T>`. -/
def Host.connect (h : Host T) (address : Address) (channel_count : Nat)
    (user_data : Nat) (res : Option Nat) : Except Error (Nat × PeerID) :=
  match res with
  | none => Except.error ⟨0⟩
  | some p => Except.ok (p, h.peer_id p)

/-! ## Helper lemmas -/

theorem Host.peer_eq_getElem (h : Host T) (idx : PeerID) :
    h.peer idx = h.peers[idx]? := by
  rw [Host.peer]
  split
  next hge =>
    exact (List.getElem?_eq_none (by simpa [Host.peer_count] using hge)).symm
  next hge =>
    rw [List.getElem?_eq_getElem
      (show idx < h.peers.length from Nat.lt_of_not_le hge)]
    simp [List.get_eq_getElem]

theorem Host.peer_mut_eq_peer (h : Host T) (idx : PeerID) :
    h.peer_mut idx = h.peer idx := rfl

theorem Host.peer_none_iff (h : Host T) (idx : PeerID) :
    h.peer idx = none ↔ h.peer_count ≤ idx := by
  rw [Host.peer_eq_getElem, List.getElem?_eq_none_iff]
  exact Iff.rfl

theorem Host.drop_disconnected_of_no_pending (h : Host T)
    (hpend : h.disconnect_drop = none) :
    h.drop_disconnected = some h := by
  simp only [Host.drop_disconnected, hpend]

theorem Host.drop_disconnected_of_pending (h : Host T) (p : PeerID)
    (hpend : h.disconnect_drop = some p) (hlt : p < h.peer_count) :
    h.drop_disconnected
      = some { h with disconnect_drop := none,
                      peers :=
                        h.peers.set p ((h.peers.get ⟨p, hlt⟩).set_data none) } := by
  simp only [Host.drop_disconnected, hpend, Host.peer_mut, Host.peer_count]
  rw [dif_neg (Nat.not_le_of_lt (show p < h.peers.length from hlt))]

theorem Host.drop_disconnected_of_pending_oob (h : Host T) (p : PeerID)
    (hpend : h.disconnect_drop = some p) (hge : h.peer_count ≤ p) :
    h.drop_disconnected = none := by
  simp only [Host.drop_disconnected, hpend, Host.peer_mut, Host.peer_count]
  rw [dif_pos (show h.peers.length ≤ p from hge)]

theorem Host.process_event_of_none (h h1 : Host T) (e : ENetEvent)
    (hdd : h.drop_disconnected = some h1)
    (hev : Event.from_sys_event e h1 = none) :
    h.process_event e = some (h1, none) := by
  simp only [Host.process_event, hdd, hev]

theorem Host.process_event_of_connect (h h1 : Host T) (e : ENetEvent)
    (pid cc : Nat) (hdd : h.drop_disconnected = some h1)
    (hev : Event.from_sys_event e h1 = some ⟨pid, EventKind.Connect cc⟩) :
    h.process_event e = some (h1, some ⟨pid, EventKind.Connect cc⟩) := by
  simp only [Host.process_event, hdd, hev]

theorem Host.process_event_of_receive (h h1 : Host T) (e : ENetEvent)
    (pid cid : Nat) (pl : List Nat) (hdd : h.drop_disconnected = some h1)
    (hev : Event.from_sys_event e h1 = some ⟨pid, EventKind.Receive cid pl⟩) :
    h.process_event e = some (h1, some ⟨pid, EventKind.Receive cid pl⟩) := by
  simp only [Host.process_event, hdd, hev]

theorem Host.process_event_of_disconnect (h h1 : Host T) (e : ENetEvent)
    (pid rc : Nat) (hdd : h.drop_disconnected = some h1)
    (hev : Event.from_sys_event e h1 = some ⟨pid, EventKind.Disconnect rc⟩) :
    h.process_event e
      = some ({ h1 with disconnect_drop := some pid },
              some ⟨pid, EventKind.Disconnect rc⟩) := by
  simp only [Host.process_event, hdd, hev]

theorem Host.process_event_of_dd_panic (h : Host T) (e : ENetEvent)
    (hdd : h.drop_disconnected = none) :
    h.process_event e = none := by
  simp only [Host.process_event, hdd]

theorem Host.drop_disconnected_clears_marker (h h1 : Host T)
    (hdd : h.drop_disconnected = some h1) : h1.disconnect_drop = none := by
  rcases hpend : h.disconnect_drop with _ | p
  · rw [Host.drop_disconnected_of_no_pending h hpend] at hdd
    injection hdd with h2
    subst h2
    exact hpend
  · rcases Nat.lt_or_ge p h.peer_count with hlt | hge
    · rw [Host.drop_disconnected_of_pending h p hpend hlt] at hdd
      injection hdd with h2
      subst h2
      rfl
    · rw [Host.drop_disconnected_of_pending_oob h p hpend hge] at hdd
      simp at hdd

theorem Host.drop_disconnected_clears_payload (h h1 : Host T) (p : PeerID)
    (hpend : h.disconnect_drop = some p)
    (hdd : h.drop_disconnected = some h1) :
    (h1.peers[p]?).bind PeerSlot.data = none := by
  rcases Nat.lt_or_ge p h.peer_count with hlt | hge
  · rw [Host.drop_disconnected_of_pending h p hpend hlt] at hdd
    injection hdd with h2
    subst h2
    show ((h.peers.set p _)[p]?).bind PeerSlot.data = none
    rw [List.getElem?_set_eq_of_lt _ (show p < h.peers.length from hlt)]
    simp [PeerSlot.set_data]
  · rw [Host.drop_disconnected_of_pending_oob h p hpend hge] at hdd
    simp at hdd

theorem Host.process_event_some_inv (h h' : Host T) (e : ENetEvent)
    (ev : Option Event) (hproc : h.process_event e = some (h', ev)) :
    ∃ h1, h.drop_disconnected = some h1 ∧ h'.peers = h1.peers := by
  rcases hdd : h.drop_disconnected with _ | h1
  · rw [Host.process_event_of_dd_panic h e hdd] at hproc
    simp at hproc
  · refine ⟨h1, rfl, ?_⟩
    rcases hev : Event.from_sys_event e h1 with _ | ⟨pid, kind⟩
    · rw [Host.process_event_of_none h h1 e hdd hev] at hproc
      simp only [Option.some.injEq, Prod.mk.injEq] at hproc
      rw [← hproc.1]
    · cases kind with
      | Connect cc =>
        rw [Host.process_event_of_connect h h1 e pid cc hdd hev] at hproc
        simp only [Option.some.injEq, Prod.mk.injEq] at hproc
        rw [← hproc.1]
      | Receive cid pl =>
        rw [Host.process_event_of_receive h h1 e pid cid pl hdd hev] at hproc
        simp only [Option.some.injEq, Prod.mk.injEq] at hproc
        rw [← hproc.1]
      | Disconnect rc =>
        rw [Host.process_event_of_disconnect h h1 e pid rc hdd hev] at hproc
        simp only [Option.some.injEq, Prod.mk.injEq] at hproc
        rw [← hproc.1]

theorem Host.poll_dispatch_pos (h : Host T) (res : Int) (e : ENetEvent)
    (hres : 0 < res) :
    h.poll_dispatch res e
      = (h.process_event e).map (fun pr => (pr.1, Except.ok pr.2)) := by
  simp only [Host.poll_dispatch, if_pos hres]

theorem Host.process_event_clears_old_payload (h h' : Host T) (e : ENetEvent)
    (ev : Option Event) (p : PeerID)
    (hpend : h.disconnect_drop = some p)
    (hproc : h.process_event e = some (h', ev)) :
    (h'.peers[p]?).bind PeerSlot.data = none := by
  obtain ⟨h1, hdd, hpeers⟩ := Host.process_event_some_inv h h' e ev hproc
  rw [hpeers]
  exact Host.drop_disconnected_clears_payload h h1 p hpend hdd

/-! ## Claim theorems -/

/-- C1 (counterexample): a host with pending-cleanup PeerID 0 and payload 42
attached to peer 0; the next poll call (`check_events` with transport
result 0, i.e. "no event") returns the host unchanged: the payload is still
attached and the pending marker is still set, contradicting the claim that
the payload is `None` immediately after any next poll call returns. -/
theorem cleanup_skipped_on_eventless_poll :
    (⟨[⟨some 42, 0⟩], some 0, 255, 0, 0, 0, 8⟩ : Host Nat).disconnect_drop
      = some 0 ∧
    (⟨[⟨some 42, 0⟩], some 0, 255, 0, 0, 0, 8⟩ : Host Nat).check_events 0
        ⟨ENetEventType.NONE, 0, 0, 0, [], 0⟩
      = some (⟨[⟨some 42, 0⟩], some 0, 255, 0, 0, 0, 8⟩, Except.ok none) ∧
    ¬ (((⟨[⟨some 42, 0⟩], some 0, 255, 0, 0, 0, 8⟩ : Host Nat).peers[0]?).bind
        PeerSlot.data = none) := by
  refine ⟨rfl, rfl, by decide⟩

/-- C1 (amended): when a pending-cleanup PeerID `p` is set and the next
`service`/`check_events` call's transport poll reports an event (positive
result code), peer `p`'s payload is `None` in the returned host state, and
the intermediate `drop_disconnected` step both resets the marker and clears
the payload before the new event is interpreted.  Polls returning "no
event" or an error do not run the cleanup (see the counterexample). -/
theorem cleanup_on_next_event_poll (T : Type) (h h' : Host T) (p : PeerID)
    (t : Duration) (res : Int) (e : ENetEvent)
    (out : Except Error (Option Event))
    (hpend : h.disconnect_drop = some p) (hres : 0 < res) :
    (h.check_events res e = some (h', out) →
      (h'.peers[p]?).bind PeerSlot.data = none) ∧
    ((h.service t res e).2 = some (h', out) →
      (h'.peers[p]?).bind PeerSlot.data = none) ∧
    (∀ h1, h.drop_disconnected = some h1 →
      h1.disconnect_drop = none ∧ (h1.peers[p]?).bind PeerSlot.data = none) := by
  have hdisp : h.check_events res e
      = (h.process_event e).map (fun pr => (pr.1, Except.ok pr.2)) :=
    Host.poll_dispatch_pos h res e hres
  have key : h.check_events res e = some (h', out) →
      (h'.peers[p]?).bind PeerSlot.data = none := by
    intro hce
    rw [hdisp] at hce
    rcases hpe : h.process_event e with _ | pr
    · rw [hpe] at hce
      simp at hce
    · rw [hpe] at hce
      simp only [Option.map_some', Option.some.injEq, Prod.mk.injEq] at hce
      exact hce.1 ▸
        Host.process_event_clears_old_payload h pr.1 e pr.2 p hpend (by rw [hpe])
  refine ⟨key, fun hs => key hs, fun h1 hdd => ?_⟩
  exact ⟨Host.drop_disconnected_clears_marker h h1 hdd,
    Host.drop_disconnected_clears_payload h h1 p hpend hdd⟩

/-- C1 witness: a concrete one-slot host with pending id 0 and payload 42;
after a `check_events` call whose transport result is positive (event
translated to "no event"), the returned host's peer 0 payload is `None`. -/
theorem cleanup_on_next_event_poll_witness :
    ((⟨[⟨none, 0⟩], none, 255, 0, 0, 0, 8⟩ : Host Nat).peers[0]?).bind
        PeerSlot.data = none :=
  (cleanup_on_next_event_poll Nat ⟨[⟨some 42, 0⟩], some 0, 255, 0, 0, 0, 8⟩
      ⟨[⟨none, 0⟩], none, 255, 0, 0, 0, 8⟩ 0 ⟨0, 0⟩ 1
      ⟨ENetEventType.NONE, 0, 0, 0, [], 0⟩ (Except.ok none) rfl
      (by decide)).1 rfl

/-- C2: on every reachable state, `disconnect_drop` holds at most one
pending-cleanup PeerID (it is an `Option`, so its element list has length
at most one, before and after), and whenever `process_event` produces a
result for the caller, the previously pending peer's payload has already
been cleared in the returned host state. -/
theorem pending_cleanup_invariant (T : Type) (h h' : Host T) (e : ENetEvent)
    (ev : Option Event) (hproc : h.process_event e = some (h', ev)) :
    h.disconnect_drop.toList.length ≤ 1 ∧
    h'.disconnect_drop.toList.length ≤ 1 ∧
    ∀ p, h.disconnect_drop = some p →
      (h'.peers[p]?).bind PeerSlot.data = none := by
  refine ⟨?_, ?_,
    fun p hp => Host.process_event_clears_old_payload h h' e ev p hp hproc⟩
  · cases h.disconnect_drop <;> simp
  · cases h'.disconnect_drop <;> simp

/-- C2 witness: a concrete two-slot host with pending id 0; `process_event`
on a "no event" native value yields a host in which peer 0's payload is
cleared. -/
theorem pending_cleanup_invariant_witness :
    ((⟨[⟨none, 0⟩, ⟨some 9, 1⟩], none, 255, 0, 0, 0, 8⟩
        : Host Nat).peers[0]?).bind PeerSlot.data = none :=
  (pending_cleanup_invariant Nat
      ⟨[⟨some 7, 0⟩, ⟨some 9, 1⟩], some 0, 255, 0, 0, 0, 8⟩
      ⟨[⟨none, 0⟩, ⟨some 9, 1⟩], none, 255, 0, 0, 0, 8⟩
      ⟨ENetEventType.NONE, 0, 0, 0, [], 0⟩ none rfl).2.2 0 rfl

/-- C3: the transport result code dispatch in `service`/`check_events`:
negative codes are surfaced as `Error` carrying exactly that code, zero is
success with no event, positive results go through `process_event`
(translation plus deferred cleanup), and the three cases are exhaustive. -/
theorem poll_result_trichotomy (T : Type) (h : Host T) (res : Int)
    (e : ENetEvent) (t : Duration) :
    (res < 0 → h.check_events res e = some (h, Except.error ⟨res⟩) ∧
        (h.service t res e).2 = some (h, Except.error ⟨res⟩)) ∧
    (res = 0 → h.check_events res e = some (h, Except.ok none) ∧
        (h.service t res e).2 = some (h, Except.ok none)) ∧
    (0 < res → h.check_events res e
          = (h.process_event e).map (fun pr => (pr.1, Except.ok pr.2)) ∧
        (h.service t res e).2
          = (h.process_event e).map (fun pr => (pr.1, Except.ok pr.2))) ∧
    (res < 0 ∨ res = 0 ∨ 0 < res) := by
  have hserv : (h.service t res e).2 = h.check_events res e := rfl
  refine ⟨fun hneg => ?_, fun hzero => ?_, fun hpos => ?_, by omega⟩
  · have hc : h.check_events res e = some (h, Except.error ⟨res⟩) := by
      simp only [Host.check_events, Host.poll_dispatch,
        if_neg (show ¬ 0 < res by omega), if_neg (show ¬ res = 0 by omega),
        if_pos hneg]
    exact ⟨hc, hserv.trans hc⟩
  · have hc : h.check_events res e = some (h, Except.ok none) := by
      simp only [Host.check_events, Host.poll_dispatch,
        if_neg (show ¬ 0 < res by omega), if_pos hzero]
    exact ⟨hc, hserv.trans hc⟩
  · have hc : h.check_events res e
        = (h.process_event e).map (fun pr => (pr.1, Except.ok pr.2)) := by
      simp only [Host.check_events, Host.poll_dispatch, if_pos hpos]
    exact ⟨hc, hserv.trans hc⟩

/-- C3 witness: a negative transport result code (-3) on a concrete host is
surfaced as `Error(-3)`. -/
theorem poll_result_trichotomy_witness :
    (⟨[], none, 255, 0, 0, 0, 8⟩ : Host Nat).check_events (-3)
        ⟨ENetEventType.NONE, 0, 0, 0, [], 0⟩
      = some (⟨[], none, 255, 0, 0, 0, 8⟩, Except.error ⟨-3⟩) :=
  ((poll_result_trichotomy Nat ⟨[], none, 255, 0, 0, 0, 8⟩ (-3)
      ⟨ENetEventType.NONE, 0, 0, 0, [], 0⟩ ⟨0, 0⟩).1 (by decide)).1

/-- C4: the channel-limit sentinel round-trips: `set_channel_limit Maximum`
followed by `channel_limit` yields `Maximum`; the sentinel is `0` on the
way out and the protocol maximum maps back to `Maximum` on the way in; a
wire value of `0` read back is the panic (`none`), and no wire value is
ever reported as `Limited 0`. -/
theorem channel_limit_sentinel_roundtrip :
    (∀ (T : Type) (h : Host T),
        (h.set_channel_limit ChannelLimit.Maximum).channel_limit
          = some ChannelLimit.Maximum) ∧
    ChannelLimit.to_enet_val ChannelLimit.Maximum = 0 ∧
    ChannelLimit.from_enet_val ENET_PROTOCOL_MAXIMUM_CHANNEL_COUNT
      = some ChannelLimit.Maximum ∧
    ChannelLimit.from_enet_val 0 = none ∧
    ∀ v, ChannelLimit.from_enet_val v ≠ some (ChannelLimit.Limited 0) := by
  refine ⟨fun T h => rfl, rfl, rfl, rfl, fun v => ?_⟩
  by_cases h255 : v = ENET_PROTOCOL_MAXIMUM_CHANNEL_COUNT
  · simp [ChannelLimit.from_enet_val, h255]
  · by_cases h0 : v = 0
    · simp [ChannelLimit.from_enet_val, h255, h0]
    · simp [ChannelLimit.from_enet_val, h255, h0]

/-- C5: `peer`/`peer_mut` are `none` exactly on out-of-range ids, otherwise
the slot at the given table offset; the `Index`/`IndexMut` sugar panics
(`none` in the model) exactly on the same out-of-range ids. -/
theorem peer_lookup_bounds (T : Type) (h : Host T) (idx : PeerID) :
    (h.peer idx = none ↔ h.peer_count ≤ idx) ∧
    (h.peer_mut idx = none ↔ h.peer_count ≤ idx) ∧
    h.peer idx = h.peers[idx]? ∧
    h.peer_mut idx = h.peers[idx]? ∧
    (h.index idx = none ↔ h.peer_count ≤ idx) ∧
    (h.index_mut idx = none ↔ h.peer_count ≤ idx) := by
  have h1 := Host.peer_none_iff h idx
  have h2 := Host.peer_eq_getElem h idx
  exact ⟨h1, h1, h2, h2, h1, h1⟩

/-- C6: `connect` fails exactly when the transport returns a null peer
handle, and then carries error code 0; on a non-null handle it returns the
handle (the fresh slot's reference) paired with the `PeerID` derived from
it. -/
theorem connect_failure_semantics (T : Type) (h : Host T) (address : Address)
    (channel_count user_data : Nat) :
    h.connect address channel_count user_data none = Except.error ⟨0⟩ ∧
    (∀ p, h.connect address channel_count user_data (some p)
        = Except.ok (p, h.peer_id p)) ∧
    ∀ res err, h.connect address channel_count user_data res
        = Except.error err → res = none ∧ err = ⟨0⟩ := by
  refine ⟨rfl, fun p => rfl, fun res err hres => ?_⟩
  cases res with
  | none =>
    simp only [Host.connect, Except.error.injEq] at hres
    exact ⟨rfl, hres.symm⟩
  | some p => exact absurd hres (by simp [Host.connect])

/-- C6 witness: a concrete host; a null transport handle yields
`Error(0)`. -/
theorem connect_failure_semantics_witness :
    (⟨[⟨none, 0⟩], none, 255, 0, 0, 0, 8⟩ : Host Nat).connect ⟨1, 2⟩ 2 0 none
      = Except.error ⟨0⟩ :=
  (connect_failure_semantics Nat ⟨[⟨none, 0⟩], none, 255, 0, 0, 0, 8⟩
    ⟨1, 2⟩ 2 0).1

/-- C7: when the translated event is a `Disconnect`, `process_event` records
its PeerID as the new pending-cleanup marker before returning the event,
and this recording step changes nothing but the marker: the whole peer
table — in particular the disconnecting peer's slot, payload included — is
exactly as it stood when the event was translated. -/
theorem disconnect_recording_frame (T : Type) (h h1 : Host T) (e : ENetEvent)
    (pid rc : Nat) (hdd : h.drop_disconnected = some h1)
    (hev : Event.from_sys_event e h1 = some ⟨pid, EventKind.Disconnect rc⟩) :
    h.process_event e
      = some ({ h1 with disconnect_drop := some pid },
              some ⟨pid, EventKind.Disconnect rc⟩) ∧
    ({ h1 with disconnect_drop := some pid } : Host T).peers = h1.peers ∧
    ({ h1 with disconnect_drop := some pid } : Host T).peers[pid]?
      = h1.peers[pid]? :=
  ⟨Host.process_event_of_disconnect h h1 e pid rc hdd hev, rfl, rfl⟩

/-- C7 witness: a concrete host with no pending cleanup receiving a native
disconnect for the peer at table offset 0; the marker is set to 0 and the
slot (payload 7) is untouched. -/
theorem disconnect_recording_frame_witness :
    (⟨[⟨some 7, 5⟩], none, 255, 0, 0, 100, 8⟩ : Host Nat).process_event
        ⟨ENetEventType.DISCONNECT, 100, 0, 9, [], 0⟩
      = some (⟨[⟨some 7, 5⟩], some 0, 255, 0, 0, 100, 8⟩,
              some ⟨0, EventKind.Disconnect 9⟩) :=
  (disconnect_recording_frame Nat ⟨[⟨some 7, 5⟩], none, 255, 0, 0, 100, 8⟩
      ⟨[⟨some 7, 5⟩], none, 255, 0, 0, 100, 8⟩
      ⟨ENetEventType.DISCONNECT, 100, 0, 9, [], 0⟩ 0 9 rfl rfl).1

/-- C8: the pointer-arithmetic PeerID derivation round-trips: the handle at
table offset `i` resolves to PeerID `i`; consequently a successful
`connect` returning that handle hands back PeerID `i`, and `peer i`
resolves to the slot at the same offset. -/
theorem peer_id_roundtrip (T : Type) (h : Host T) (i : Nat)
    (hsize : 0 < h.peerSize) (hi : i < h.peer_count) :
    h.peer_id (h.peersBase + i * h.peerSize) = i ∧
    (∀ a c u, h.connect a c u (some (h.peersBase + i * h.peerSize))
        = Except.ok (h.peersBase + i * h.peerSize, i)) ∧
    (h.peer i).isSome ∧ h.peer i = h.peers[i]? := by
  have hid : h.peer_id (h.peersBase + i * h.peerSize) = i := by
    simp only [Host.peer_id, Nat.add_sub_cancel_left]
    exact Nat.mul_div_cancel _ hsize
  refine ⟨hid, fun a c u => ?_, ?_, Host.peer_eq_getElem h i⟩
  · simp only [Host.connect, hid]
  · rw [Host.peer_eq_getElem]
    rw [List.getElem?_eq_getElem (show i < h.peers.length from hi)]
    rfl

/-- C8 witness: a two-slot table based at address 1000 with stride 8; the
handle at offset 1 resolves back to PeerID 1. -/
theorem peer_id_roundtrip_witness :
    (⟨[⟨none, 0⟩, ⟨none, 1⟩], none, 255, 0, 0, 1000, 8⟩ : Host Nat).peer_id
        (1000 + 1 * 8) = 1 :=
  (peer_id_roundtrip Nat ⟨[⟨none, 0⟩, ⟨none, 1⟩], none, 255, 0, 0, 1000, 8⟩ 1
      (by decide) (by decide)).1

/-- C9: `service` passes `timeout.as_millis() as u32` to the transport:
the whole-millisecond count of the timeout, truncated (floored), reduced
modulo `2 ^ 32`; in particular any timeout strictly below one millisecond
is passed as `0`. -/
theorem service_timeout_truncation (T : Type) (h : Host T) (t : Duration)
    (res : Int) (e : ENetEvent) :
    (h.service t res e).1
      = ((t.secs * 1000000000 + t.nanos) / 1000000) % 2 ^ 32 ∧
    (t.secs * 1000000000 + t.nanos < 1000000 → (h.service t res e).1 = 0) := by
  have hms : (h.service t res e).1
      = (t.secs * 1000 + t.nanos / 1000000) % 2 ^ 32 := rfl
  have hdiv : t.secs * 1000 + t.nanos / 1000000
      = (t.secs * 1000000000 + t.nanos) / 1000000 := by
    rw [show t.secs * 1000000000 + t.nanos
        = t.nanos + t.secs * 1000 * 1000000 by ring]
    rw [Nat.add_mul_div_right _ _ (show 0 < 1000000 by norm_num)]
    omega
  refine ⟨by rw [hms, hdiv], fun hlt => ?_⟩
  rw [hms, hdiv, Nat.div_eq_of_lt hlt]
  rfl

/-- C9 witness: a 999999-nanosecond timeout (just under one millisecond) is
passed to the transport as `0`. -/
theorem service_timeout_truncation_witness :
    ((⟨[], none, 255, 0, 0, 0, 8⟩ : Host Nat).service ⟨0, 999999⟩ 0
        ⟨ENetEventType.NONE, 0, 0, 0, [], 0⟩).1 = 0 :=
  (service_timeout_truncation Nat ⟨[], none, 255, 0, 0, 0, 8⟩ ⟨0, 999999⟩ 0
      ⟨ENetEventType.NONE, 0, 0, 0, [], 0⟩).2 (by norm_num)

/-- C10: under the invariant that any pending-cleanup PeerID is in range
(below `peer_count`), `drop_disconnected` never hits its `expect` panic:
it always returns a host state (`isSome`). -/
theorem drop_disconnected_no_panic (T : Type) (h : Host T)
    (hinv : ∀ p, h.disconnect_drop = some p → p < h.peer_count) :
    (h.drop_disconnected).isSome := by
  rcases hpend : h.disconnect_drop with _ | p
  · rw [Host.drop_disconnected_of_no_pending h hpend]
    rfl
  · rw [Host.drop_disconnected_of_pending h p hpend (hinv p hpend)]
    rfl

/-- C10 witness: a concrete one-slot host with in-range pending id 0;
`drop_disconnected` succeeds. -/
theorem drop_disconnected_no_panic_witness :
    ((⟨[⟨some 1, 0⟩], some 0, 255, 0, 0, 0, 8⟩
        : Host Nat).drop_disconnected).isSome :=
  drop_disconnected_no_panic Nat ⟨[⟨some 1, 0⟩], some 0, 255, 0, 0, 0, 8⟩
    (by
      intro p hp
      have h0 : some (0 : PeerID) = some p := hp
      injection h0 with h1
      subst h1
      decide)
